import Mathlib

/-!
Shallow embedding of the SCALPING_BOT reconciliation and risk-control core,
with theorems settling the specification claims against it.

Python floats are modelled as exact rationals (ℚ); the claims under study
concern control flow, sign tests and exact comparisons, not rounding.
Exceptions are modelled with `Except`; `try/except` blocks become matches on
the embedded outcome.  Remote I/O outcomes (account queries, order placement
responses) are passed in explicitly as environment values.
-/

namespace ScalpingBot

/-! ## risk/position_sizer.py -/

/-- `compute_position_size` from src/risk/position_sizer.py:
returns `None` when any input is ≤ 0, else `(equity*risk_percent)/(entry_price*sl_percent)`,
guarded once more against a non-positive quotient. -/
def compute_position_size (equity risk_percent entry_price sl_percent : ℚ) : Option ℚ :=
  if equity ≤ 0 ∨ risk_percent ≤ 0 ∨ entry_price ≤ 0 ∨ sl_percent ≤ 0 then none
  else
    let qty := equity * risk_percent / (entry_price * sl_percent)
    if qty > 0 then some qty else none

/-! ## exchange/order_manager.py — rounding and market-order guard -/

/-- Python `Decimal.__floordiv__` (`//`): integer division truncating toward zero. -/
def decimalIntDiv (a b : ℚ) : ℤ :=
  if a / b < 0 then ⌈a / b⌉ else ⌊a / b⌋

/-- `OrderManager._round_qty`: `(Decimal(qty) // step) * step`, step from the
cached LOT_SIZE filter (passed here as a parameter). -/
def round_qty (step qty : ℚ) : ℚ :=
  (decimalIntDiv qty step : ℚ) * step

/-- `OrderManager._round_price`: `(Decimal(price) // tick) * tick`. -/
def round_price (tick price : ℚ) : ℚ :=
  (decimalIntDiv price tick : ℚ) * tick

/-- `OrderManager.place_market_order`: rounds the quantity, raises
`BinanceAPIError` when the rounded quantity is ≤ 0, else submits and returns. -/
def place_market_order (step quantity : ℚ) : Except String ℚ :=
  let qty := round_qty step quantity
  if qty ≤ 0 then Except.error "Rounded quantity is zero; aborting order"
  else Except.ok qty

/-! ## risk/trade_limits.py

`reset_if_needed` derives `datetime.utcfromtimestamp(now_ms / 1000).date()` and
`_hour_key(...)`.  The proleptic-Gregorian civil date of an epoch-day count is
computed with exact integer arithmetic (floor division), matching CPython's
`datetime` for all timestamps. -/

/-- A UTC calendar date, as produced by `datetime.date()`. -/
structure Date where
  year : ℤ
  month : ℤ
  day : ℤ
deriving DecidableEq

/-- Civil date from days since the Unix epoch (proleptic Gregorian calendar). -/
def civilFromDays (z0 : ℤ) : Date :=
  let z := z0 + 719468
  let era := z.fdiv 146097
  let doe := z - era * 146097
  let yoe := (doe - doe.fdiv 1460 + doe.fdiv 36524 - doe.fdiv 146096).fdiv 365
  let y := yoe + era * 400
  let doy := doe - (365 * yoe + yoe.fdiv 4 - yoe.fdiv 100)
  let mp := (5 * doy + 2).fdiv 153
  let d := doy - (153 * mp + 2).fdiv 5 + 1
  let m := mp + (if mp < 10 then 3 else -9)
  { year := y + (if m ≤ 2 then 1 else 0), month := m, day := d }

/-- Gregorian leap-year test. -/
def isLeapYear (y : ℤ) : Bool :=
  (y % 4 == 0 && y % 100 != 0) || y % 400 == 0

/-- Days in the year strictly before month `m` (CPython `tm_yday` support). -/
def daysBeforeMonth (m : ℤ) (leap : Bool) : ℤ :=
  let base :=
    if m = 1 then 0 else if m = 2 then 31 else if m = 3 then 59
    else if m = 4 then 90 else if m = 5 then 120 else if m = 6 then 151
    else if m = 7 then 181 else if m = 8 then 212 else if m = 9 then 243
    else if m = 10 then 273 else if m = 11 then 304 else 334
  if leap && decide (m > 2) then base + 1 else base

/-- `timetuple().tm_yday`: 1-based ordinal day of the year. -/
def dayOfYear (d : Date) : ℤ :=
  daysBeforeMonth d.month (isLeapYear d.year) + d.day

/-- `datetime.utcfromtimestamp(now_ms / 1000).date()`. -/
def utcDate (nowMs : ℤ) : Date :=
  civilFromDays (nowMs.fdiv 86400000)

/-- `datetime.utcfromtimestamp(now_ms / 1000).hour`. -/
def utcHour (nowMs : ℤ) : ℤ :=
  (nowMs.fmod 86400000).fdiv 3600000

/-- `TradeLimits._hour_key`: `year * 10_000 + tm_yday * 24 + hour`. -/
def hour_key (year yday hour : ℤ) : ℤ :=
  year * 10000 + yday * 24 + hour

/-- `_hour_key` applied to `utcfromtimestamp(now_ms / 1000)`. -/
def hourKeyOfMs (nowMs : ℤ) : ℤ :=
  let d := utcDate nowMs
  hour_key d.year (dayOfYear d) (utcHour nowMs)

/-- The mutable state of a `TradeLimits` object, limits included (the source
reads them from `config.risk` via `getattr(..., None)` at construction). -/
structure TradeLimits where
  daily_trades : ℕ
  hourly_trades : ℕ
  daily_loss : ℚ
  currentDay : Date
  currentHourKey : ℤ
  max_daily_loss : Option ℚ
  max_trades_per_day : Option ℕ
  max_trades_per_hour : Option ℕ
deriving DecidableEq

/-- `TradeLimits.reset_if_needed`: compare the UTC-day bucket and the hour key
of `now_ms` against the stored buckets, resetting each group independently. -/
def TradeLimits.reset_if_needed (s : TradeLimits) (nowMs : ℤ) : TradeLimits :=
  let day := utcDate nowMs
  let hk := hourKeyOfMs nowMs
  let s1 :=
    if day ≠ s.currentDay then
      { s with daily_trades := 0, daily_loss := 0, currentDay := day }
    else s
  if hk ≠ s1.currentHourKey then
    { s1 with hourly_trades := 0, currentHourKey := hk }
  else s1

/-- `TradeLimits.record_trade`: reset-if-needed, then bump both counters and
accumulate the PnL into `daily_loss` only when it is negative. -/
def TradeLimits.record_trade (s : TradeLimits) (pnl : ℚ) (nowMs : ℤ) : TradeLimits :=
  let s1 := s.reset_if_needed nowMs
  { s1 with
    daily_trades := s1.daily_trades + 1,
    hourly_trades := s1.hourly_trades + 1,
    daily_loss := if pnl < 0 then s1.daily_loss + pnl else s1.daily_loss }

/-- `TradeLimits.limits_exceeded`: any configured cap breached; an unset
(`None`) cap is never checked. -/
def TradeLimits.limits_exceeded (s : TradeLimits) : Bool :=
  (match s.max_daily_loss with
   | some m => decide (s.daily_loss ≤ -|m|)
   | none => false) ||
  (match s.max_trades_per_day with
   | some m => decide (s.daily_trades > m)
   | none => false) ||
  (match s.max_trades_per_hour with
   | some m => decide (s.hourly_trades > m)
   | none => false)

/-! ## risk/kill_switch.py -/

/-- `KillSwitch` holds the single flag `is_trading_allowed` (initially true). -/
structure KillSwitch where
  is_trading_allowed : Bool
deriving DecidableEq

/-- `KillSwitch.evaluate`: trips the flag to false when limits are exceeded;
never sets it back to true. -/
def KillSwitch.evaluate (ks : KillSwitch) (limits : TradeLimits) : KillSwitch :=
  if limits.limits_exceeded then { is_trading_allowed := false } else ks

/-- `KillSwitch.reset_daily`: unconditionally re-allows trading. -/
def KillSwitch.reset_daily (_ks : KillSwitch) : KillSwitch :=
  { is_trading_allowed := true }

/-! ## position/position.py and position/tracker.py -/

/-- The `Position` dataclass. -/
structure Position where
  symbol : String
  side : String
  quantity : ℚ
  entry_price : ℚ
  entry_time : ℤ
deriving DecidableEq

/-- One entry of `account_info["positions"]`, restricted to the fields the
code reads. -/
structure RawPosition where
  symbol : String
  positionAmt : ℚ
  entryPrice : ℚ
  updateTime : ℤ
deriving DecidableEq

/-- The parsing loop shared by `PositionTracker.sync_from_exchange` and
`TpSlManager._fetch_remote_position`: first entry for the symbol with a
non-zero `positionAmt` becomes the remote `Position`. -/
def parseRemotePosition (symbol : String) : List RawPosition → Option Position
  | [] => none
  | e :: rest =>
    if e.symbol ≠ symbol then parseRemotePosition symbol rest
    else if e.positionAmt = 0 then parseRemotePosition symbol rest
    else some
      { symbol := symbol
        side := if e.positionAmt > 0 then "LONG" else "SHORT"
        quantity := |e.positionAmt|
        entry_price := e.entryPrice
        entry_time := e.updateTime }

/-- Outcome of `client.get_account_info()`: the raised `BinanceAPIError` or
the positions list of the response. -/
inductive AccountFetch where
  | apiError
  | ok (positions : List RawPosition)
deriving DecidableEq

/-- The `1e-8` reconciliation tolerance. -/
def tol : ℚ := 1 / 100000000

/-- `PositionTracker.sync_from_exchange`.  The result is `Except` so that
"does a `BinanceAPIError` propagate to the caller" is part of the model: the
source catches it, logs and returns, so the embedding never yields `.error`. -/
def sync_from_exchange (symbol : String) (localPos : Option Position)
    (fetch : AccountFetch) : Except Unit (Option Position) :=
  match fetch with
  | .apiError => Except.ok localPos
  | .ok entries =>
    let remote := parseRemotePosition symbol entries
    match remote, localPos with
    | some r, none => Except.ok (some r)
    | some r, some l =>
      if l.side ≠ r.side ∨ |l.quantity - r.quantity| > tol ∨
          |l.entry_price - r.entry_price| > tol then
        Except.ok (some r)
      else
        Except.ok (some l)
    | none, some l => Except.ok (some l)
    | none, none => Except.ok none

/-! ## execution/tp_sl.py

The manager's mutable fields plus the tracker's position form the state; the
exchange responses a `sync()` consumes form the environment.  Outgoing order
traffic is recorded as a list of actions so that "zero additional
placements/cancellations" is statable. -/

/-- An outgoing exchange request made during `TpSlManager.sync`. -/
inductive OrderAction where
  | placeTP
  | placeSL
  | cancel (orderId : ℤ)
deriving DecidableEq

/-- `TpSlManager` fields (`tp_order_id`, `sl_order_id`, `is_protected`)
together with `position_tracker.symbol` and `position_tracker.position`. -/
structure TpSlState where
  symbol : String
  tp_order_id : Option ℤ
  sl_order_id : Option ℤ
  is_protected : Bool
  trackerPosition : Option Position
deriving DecidableEq

/-- Outcome of one `place_take_profit` / `place_stop_loss` call: the raised
exchange error, or a response whose `orderId` field may be absent. -/
inductive PlaceResult where
  | apiError
  | ok (orderId : Option ℤ)
deriving DecidableEq

/-- Environment consumed by one `TpSlManager.sync()` call. -/
structure TpSlEnv where
  fetch : AccountFetch
  tpResult : PlaceResult
  slResult : PlaceResult
deriving DecidableEq

/-- Python truthiness of the `orderId` payload: `if not tp_id: raise` treats
both a missing id and id `0` as failure. -/
def truthyId : Option ℤ → Option ℤ
  | none => none
  | some i => if i = 0 then none else some i

/-- `TpSlManager._cancel_outstanding`: best-effort cancel of each truthy order
id (failures are caught and only logged), then both ids are cleared and the
protection flag is dropped. -/
def cancel_outstanding (s : TpSlState) : TpSlState × List OrderAction :=
  let tpActs :=
    match s.tp_order_id with
    | some i => if i ≠ 0 then [OrderAction.cancel i] else []
    | none => []
  let slActs :=
    match s.sl_order_id with
    | some i => if i ≠ 0 then [OrderAction.cancel i] else []
    | none => []
  ({ s with tp_order_id := none, sl_order_id := none, is_protected := false },
   tpActs ++ slActs)

/-- `TpSlManager._place_protection`: place TP, record its id, place SL, record
its id; on any `ValueError`/`BinanceAPIError` (placement error or missing id)
cancel whatever is outstanding and force `is_protected = False`. -/
def place_protection (s : TpSlState) (env : TpSlEnv) : TpSlState × List OrderAction :=
  match env.tpResult with
  | .apiError =>
    let c := cancel_outstanding s
    ({ c.1 with is_protected := false }, OrderAction.placeTP :: c.2)
  | .ok tpResp =>
    match truthyId tpResp with
    | none =>
      let c := cancel_outstanding s
      ({ c.1 with is_protected := false }, OrderAction.placeTP :: c.2)
    | some tpId =>
      let s1 := { s with tp_order_id := some tpId }
      match env.slResult with
      | .apiError =>
        let c := cancel_outstanding s1
        ({ c.1 with is_protected := false },
         OrderAction.placeTP :: OrderAction.placeSL :: c.2)
      | .ok slResp =>
        match truthyId slResp with
        | none =>
          let c := cancel_outstanding s1
          ({ c.1 with is_protected := false },
           OrderAction.placeTP :: OrderAction.placeSL :: c.2)
        | some slId =>
          ({ s1 with sl_order_id := some slId },
           [OrderAction.placeTP, OrderAction.placeSL])

/-- `TpSlManager._fetch_remote_position`: on a `BinanceAPIError` fall back to
the tracker's position; on success parse the positions list, aligning the
tracker (`set_position`) when a remote position exists and dropping the
protection flag when none does. -/
def fetch_remote_position (s : TpSlState) (fetch : AccountFetch) :
    TpSlState × Option Position :=
  match fetch with
  | .apiError => (s, s.trackerPosition)
  | .ok entries =>
    match parseRemotePosition s.symbol entries with
    | some r => ({ s with trackerPosition := some r }, some r)
    | none => ({ s with is_protected := false }, none)

/-- `TpSlManager.sync`: no remote position → cancel leftovers and clear local;
remote position and not protected → cancel leftovers, place protection, then
set `is_protected = True` (unconditionally — see the claim theorems); remote
position and already protected → no action. -/
def TpSlState.sync (s : TpSlState) (env : TpSlEnv) : TpSlState × List OrderAction :=
  let fr := fetch_remote_position s env.fetch
  match fr.2 with
  | none =>
    let c := cancel_outstanding fr.1
    ({ c.1 with trackerPosition := none, is_protected := false }, c.2)
  | some _ =>
    if fr.1.is_protected then (fr.1, [])
    else
      let c := cancel_outstanding fr.1
      let pp := place_protection c.1 env
      ({ pp.1 with is_protected := true }, c.2 ++ pp.2)

/-! ## exchange/market_data.py and the main-loop cycle -/

/-- A Python exception relevant to the control loop. -/
inductive PyError where
  | valueError (msg : String)
  | binanceAPIError (msg : String)
deriving DecidableEq

/-- The candle interval literal type. -/
inductive Interval where
  | oneMin
  | fiveMin
deriving DecidableEq

/-- `INTERVAL_SECONDS`. -/
def intervalSeconds : Interval → ℤ
  | .oneMin => 60
  | .fiveMin => 300

/-- Python `int(x)` on a number: truncation toward zero. -/
def pyInt (q : ℚ) : ℤ :=
  if q < 0 then ⌈q⌉ else ⌊q⌋

/-- A raw klines response: either not a JSON list at all, or a list of
entries, each itself a list of numeric fields. -/
inductive KlinesResp where
  | notList
  | list (entries : List (List ℚ))
deriving DecidableEq

/-- One kline entry after field extraction. -/
structure ParsedKline where
  openTime : ℤ
  openP : ℚ
  highP : ℚ
  lowP : ℚ
  closeP : ℚ
  vol : ℚ
  closeTime : ℤ
deriving DecidableEq

/-- The field-extraction loop of `_normalize_klines`: each entry must be a
list of length ≥ 7, else `ValueError("Unexpected kline format")`. -/
def parseKlineEntries : List (List ℚ) → Except PyError (List ParsedKline)
  | [] => Except.ok []
  | entry :: rest =>
    if entry.length < 7 then
      Except.error (PyError.valueError "Unexpected kline format")
    else
      match parseKlineEntries rest with
      | Except.error e => Except.error e
      | Except.ok tailKs =>
        Except.ok
          ({ openTime := pyInt (entry.getD 0 0)
             openP := entry.getD 1 0
             highP := entry.getD 2 0
             lowP := entry.getD 3 0
             closeP := entry.getD 4 0
             vol := entry.getD 5 0
             closeTime := pyInt (entry.getD 6 0) } :: tailKs)

/-- `MarketDataService._validate_sequence`: every open time must equal its
predecessor plus the interval, else `ValueError`. -/
def validate_sequence : List ℤ → ℤ → Except PyError Unit
  | t0 :: t1 :: rest, intervalMs =>
    if t1 ≠ t0 + intervalMs then
      Except.error (PyError.valueError "Missing or unordered candles detected")
    else
      validate_sequence (t1 :: rest) intervalMs
  | _, _ => Except.ok ()

/-- `MarketDataService._is_closed`. -/
def is_closed (lastCloseTime nowMs safetyMarginMs : ℤ) : Bool :=
  lastCloseTime < nowMs - safetyMarginMs

/-- The normalized OHLCV dictionary (`open/high/low/close/volume/timestamp`). -/
structure Ohlcv where
  openP : List ℚ
  highP : List ℚ
  lowP : List ℚ
  closeP : List ℚ
  volume : List ℚ
  timestamp : List ℤ
deriving DecidableEq

/-- `MarketDataService._normalize_klines`: reject a non-list or empty
response, extract fields, validate contiguity, drop a still-forming last
candle, and assemble the dictionary (empty when nothing closed remains). -/
def normalize_klines (resp : KlinesResp) (interval : Interval)
    (nowMs safetyMarginMs : ℤ) : Except PyError Ohlcv :=
  match resp with
  | .notList => Except.error (PyError.valueError "Klines response is empty or invalid")
  | .list [] => Except.error (PyError.valueError "Klines response is empty or invalid")
  | .list entries =>
    match parseKlineEntries entries with
    | Except.error e => Except.error e
    | Except.ok ks =>
      let intervalMs := intervalSeconds interval * 1000
      match validate_sequence (ks.map (·.openTime)) intervalMs with
      | Except.error e => Except.error e
      | Except.ok _ =>
        let ks2 :=
          if is_closed ((ks.map (·.closeTime)).getLastD 0) nowMs safetyMarginMs
          then ks else ks.dropLast
        if ks2.isEmpty then
          Except.ok
            { openP := [], highP := [], lowP := [], closeP := [], volume := [],
              timestamp := [] }
        else
          Except.ok
            { openP := ks2.map (·.openP), highP := ks2.map (·.highP)
              lowP := ks2.map (·.lowP), closeP := ks2.map (·.closeP)
              volume := ks2.map (·.vol), timestamp := ks2.map (·.closeTime) }

/-- What one pass of `main`'s `while True` body does, seen from the outside. -/
inductive CycleResult where
  | nextCycle
  | uncaughtError (e : PyError)
deriving DecidableEq

/-- The data-fetch phase of one cycle of `main` (src/main.py lines 71-78).
The two `fetch_closed_klines` calls sit outside any `try`, and the loop's
only handler is `except KeyboardInterrupt`, so a `ValueError` raised during
normalization escapes the loop and terminates the process.  (`fetch` never
returns `None`, which makes the `if candles_1m is None` guard unreachable;
it is therefore not modelled as a reachable branch.) -/
def run_cycle_data_phase (raw1m raw5m : KlinesResp) (nowMs safetyMarginMs : ℤ) :
    CycleResult :=
  match normalize_klines raw1m Interval.oneMin nowMs safetyMarginMs with
  | Except.error e => CycleResult.uncaughtError e
  | Except.ok _ =>
    match normalize_klines raw5m Interval.fiveMin nowMs safetyMarginMs with
    | Except.error e => CycleResult.uncaughtError e
    | Except.ok _ => CycleResult.nextCycle

/-! ## Concrete fixtures for witness and counterexample theorems -/

/-- A tracked LONG position used in concrete instantiations. -/
def posFix : Position := ⟨"BTCUSDT", "LONG", 2, 100, 5⟩

/-- The account-info entry that parses to `posFix`. -/
def rawFix : RawPosition := ⟨"BTCUSDT", 2, 100, 5⟩

/-- A `TradeLimits` state whose daily-trade cap is breached. -/
def tlHit : TradeLimits := ⟨1, 0, 0, ⟨1970, 1, 1⟩, 0, none, some 0, none⟩

/-- A `TradeLimits` state with no cap breached. -/
def tlQuiet : TradeLimits := ⟨0, 0, 0, ⟨1970, 1, 1⟩, 0, none, some 5, none⟩

/-- A fresh `TradeLimits` whose buckets are those of epoch time 0. -/
def tlInit : TradeLimits := ⟨0, 0, 0, utcDate 0, hourKeyOfMs 0, none, none, none⟩

/-- An unprotected TP/SL manager state tracking `posFix`. -/
def tpslUnprotected : TpSlState := ⟨"BTCUSDT", none, none, false, some posFix⟩

/-- A protected TP/SL manager state tracking `posFix`, both order ids live. -/
def tpslProtected : TpSlState := ⟨"BTCUSDT", some 11, some 12, true, some posFix⟩

/-- Environment: account query succeeds, TP placement raises, SL would succeed. -/
def envTpFails : TpSlEnv := ⟨AccountFetch.ok [rawFix], PlaceResult.apiError, PlaceResult.ok (some 7)⟩

/-- Environment: account query and both placements succeed. -/
def envAllOk : TpSlEnv := ⟨AccountFetch.ok [rawFix], PlaceResult.ok (some 3), PlaceResult.ok (some 4)⟩

/-- Environment: account query raises a `BinanceAPIError`. -/
def envOutage : TpSlEnv := ⟨AccountFetch.apiError, PlaceResult.ok (some 3), PlaceResult.ok (some 4)⟩

/-- A klines response with a missing 1m candle (open times 0 then 120000). -/
def badGapKlines : KlinesResp :=
  KlinesResp.list [[0, 1, 1, 1, 1, 1, 59999], [120000, 1, 1, 1, 1, 1, 179999]]

/-- An empty klines response. -/
def emptyKlines : KlinesResp := KlinesResp.list []

/-! # Theorems settling the claims -/

/-- C6: `compute_position_size` is pure and total.  For positive inputs it
returns exactly `(equity × risk_percent) / (entry_price × sl_percent)`, which
is strictly positive; whenever any argument is ≤ 0 it returns the `None`
sentinel.  Totality (it never raises) is inherent: the embedding is a total
function into `Option ℚ`. -/
theorem compute_position_size_spec (equity risk_percent entry_price sl_percent : ℚ) :
    (0 < equity → 0 < risk_percent → 0 < entry_price → 0 < sl_percent →
      compute_position_size equity risk_percent entry_price sl_percent =
        some (equity * risk_percent / (entry_price * sl_percent)) ∧
      0 < equity * risk_percent / (entry_price * sl_percent)) ∧
    (equity ≤ 0 ∨ risk_percent ≤ 0 ∨ entry_price ≤ 0 ∨ sl_percent ≤ 0 →
      compute_position_size equity risk_percent entry_price sl_percent = none) := by
  constructor
  · intro he hr hp hs
    have hq : 0 < equity * risk_percent / (entry_price * sl_percent) :=
      div_pos (mul_pos he hr) (mul_pos hp hs)
    have hcond : ¬(equity ≤ 0 ∨ risk_percent ≤ 0 ∨ entry_price ≤ 0 ∨ sl_percent ≤ 0) := by
      push_neg
      exact ⟨he, hr, hp, hs⟩
    refine ⟨?_, hq⟩
    simp [compute_position_size, hcond, hq]
  · intro h
    simp [compute_position_size, h]

/-- C6 witness: the spec's own end-to-end numbers, equity 10000, risk 0.1%,
entry 50000, SL distance 1%, giving quantity 1/50 = 0.02. -/
theorem compute_position_size_spec_witness :
    compute_position_size 10000 (1/1000) 50000 (1/100) =
      some (10000 * (1/1000) / (50000 * (1/100))) ∧
    (0 : ℚ) < 10000 * (1/1000) / (50000 * (1/100)) :=
  (compute_position_size_spec 10000 (1/1000) 50000 (1/100)).1
    (by norm_num) (by norm_num) (by norm_num) (by norm_num)

/-- C9: for positive quantity and step, `_round_qty` floors to the step grid —
the result is `⌊q/s⌋·s`, an integer multiple of `s`, never exceeds `q`, and is
the greatest such multiple; and `place_market_order` errors out exactly when
the rounded quantity is ≤ 0, submitting the rounded value otherwise. -/
theorem round_qty_floor_spec (q s : ℚ) (hq : 0 < q) (hs : 0 < s) :
    round_qty s q = (⌊q / s⌋ : ℚ) * s ∧
    (∃ n : ℤ, round_qty s q = (n : ℚ) * s) ∧
    round_qty s q ≤ q ∧
    (∀ n : ℤ, (n : ℚ) * s ≤ q → (n : ℚ) * s ≤ round_qty s q) ∧
    (∀ q2 : ℚ, round_qty s q2 ≤ 0 →
      place_market_order s q2 = Except.error "Rounded quantity is zero; aborting order") ∧
    (∀ q2 : ℚ, 0 < round_qty s q2 →
      place_market_order s q2 = Except.ok (round_qty s q2)) := by
  have hds : ¬(q / s < 0) := not_lt.mpr (div_pos hq hs).le
  have hfloor : round_qty s q = (⌊q / s⌋ : ℚ) * s := by
    unfold round_qty decimalIntDiv
    rw [if_neg hds]
  refine ⟨hfloor, ⟨⌊q / s⌋, hfloor⟩, ?_, ?_, ?_, ?_⟩
  · rw [hfloor]
    calc (⌊q / s⌋ : ℚ) * s ≤ (q / s) * s :=
          mul_le_mul_of_nonneg_right (Int.floor_le _) hs.le
      _ = q := div_mul_cancel₀ q (ne_of_gt hs)
  · intro n hn
    rw [hfloor]
    have h1 : (n : ℚ) ≤ q / s := (le_div_iff₀ hs).mpr hn
    have h2 : (n : ℚ) ≤ (⌊q / s⌋ : ℚ) := by
      exact_mod_cast Int.le_floor.mpr h1
    exact mul_le_mul_of_nonneg_right h2 hs.le
  · intro q2 h2
    simp [place_market_order, h2]
  · intro q2 h2
    simp [place_market_order, not_le.mpr h2]

/-- C9 witness: quantity 0.25, step 0.1 → submitted 0.2; and a concrete
rejection when the rounded quantity degenerates to 0. -/
theorem round_qty_floor_spec_witness :
    round_qty (1/10) (1/4) = ((⌊(1/4 : ℚ) / (1/10)⌋ : ℚ) * (1/10)) ∧
    round_qty (1/10) (1/4) ≤ 1/4 ∧
    place_market_order (1/10) (1/20) =
      Except.error "Rounded quantity is zero; aborting order" := by
  have h := round_qty_floor_spec (1/4) (1/10) (by norm_num) (by norm_num)
  exact ⟨h.1, h.2.2.1, h.2.2.2.2.1 (1/20) (by norm_num [round_qty, decimalIntDiv])⟩

/-- Helper: `evaluate` never turns a tripped kill switch back on. -/
lemma evaluate_keeps_tripped (ks : KillSwitch) (l : TradeLimits)
    (h : ks.is_trading_allowed = false) :
    (ks.evaluate l).is_trading_allowed = false := by
  unfold KillSwitch.evaluate
  split
  · rfl
  · exact h

/-- Helper: a tripped kill switch stays tripped under any sequence of
`evaluate` calls. -/
lemma foldl_evaluate_keeps_tripped (ls : List TradeLimits) (ks : KillSwitch)
    (h : ks.is_trading_allowed = false) :
    (ls.foldl KillSwitch.evaluate ks).is_trading_allowed = false := by
  induction ls generalizing ks with
  | nil => exact h
  | cons l rest ih => exact ih _ (evaluate_keeps_tripped ks l h)

/-- C4: the kill switch is one-directional.  An `evaluate` call made while
`limits_exceeded()` holds forces `is_trading_allowed = false`, every further
sequence of `evaluate` calls (whatever their limits) leaves it false, and only
`reset_daily()` sets it back to true. -/
theorem kill_switch_one_way (ks : KillSwitch) (l : TradeLimits)
    (post : List TradeLimits) (h : l.limits_exceeded = true) :
    (ks.evaluate l).is_trading_allowed = false ∧
    (post.foldl KillSwitch.evaluate (ks.evaluate l)).is_trading_allowed = false ∧
    ((post.foldl KillSwitch.evaluate (ks.evaluate l)).reset_daily).is_trading_allowed
      = true := by
  have h1 : (ks.evaluate l).is_trading_allowed = false := by
    unfold KillSwitch.evaluate
    rw [if_pos h]
  exact ⟨h1, foldl_evaluate_keeps_tripped post _ h1, rfl⟩

/-- C4 witness: trip on a breached daily-trade cap, then re-evaluate with
quiet limits — trading stays disallowed; `reset_daily` re-allows it. -/
theorem kill_switch_one_way_witness :
    ((⟨true⟩ : KillSwitch).evaluate tlHit).is_trading_allowed = false ∧
    ([tlQuiet].foldl KillSwitch.evaluate ((⟨true⟩ : KillSwitch).evaluate tlHit)).is_trading_allowed = false ∧
    (([tlQuiet].foldl KillSwitch.evaluate ((⟨true⟩ : KillSwitch).evaluate tlHit)).reset_daily).is_trading_allowed = true :=
  kill_switch_one_way ⟨true⟩ tlHit [tlQuiet] (by decide)

/-- C7: `record_trade(pnl, now)` first applies `reset_if_needed(now)`, then
increments both counters by exactly one, and adds `pnl` to `daily_loss` iff
`pnl < 0` — a non-negative PnL leaves the accumulated loss unchanged. -/
theorem record_trade_spec (s : TradeLimits) (pnl : ℚ) (nowMs : ℤ) :
    (s.record_trade pnl nowMs).daily_trades = (s.reset_if_needed nowMs).daily_trades + 1 ∧
    (s.record_trade pnl nowMs).hourly_trades = (s.reset_if_needed nowMs).hourly_trades + 1 ∧
    (pnl < 0 →
      (s.record_trade pnl nowMs).daily_loss = (s.reset_if_needed nowMs).daily_loss + pnl) ∧
    (0 ≤ pnl →
      (s.record_trade pnl nowMs).daily_loss = (s.reset_if_needed nowMs).daily_loss) ∧
    (s.record_trade pnl nowMs).currentDay = (s.reset_if_needed nowMs).currentDay ∧
    (s.record_trade pnl nowMs).currentHourKey = (s.reset_if_needed nowMs).currentHourKey := by
  refine ⟨rfl, rfl, ?_, ?_, rfl, rfl⟩
  · intro h
    simp [TradeLimits.record_trade, h]
  · intro h
    simp [TradeLimits.record_trade, not_lt.mpr h]

/-- C7 witness: a losing trade of −10 at epoch 0 bumps both counters and is
added to the loss; a winning trade of +10 leaves the loss untouched. -/
theorem record_trade_spec_witness :
    (tlInit.record_trade (-10) 0).daily_trades = (tlInit.reset_if_needed 0).daily_trades + 1 ∧
    (tlInit.record_trade (-10) 0).daily_loss = (tlInit.reset_if_needed 0).daily_loss + (-10) ∧
    (tlInit.record_trade 10 0).daily_loss = (tlInit.reset_if_needed 0).daily_loss := by
  refine ⟨(record_trade_spec tlInit (-10) 0).1,
          (record_trade_spec tlInit (-10) 0).2.2.1 (by norm_num),
          (record_trade_spec tlInit 10 0).2.2.2.1 (by norm_num)⟩

/-- Helper: `record_trade` of a losing trade on a state whose buckets already
match epoch time 0. -/
lemma record_trade_same_bucket (dt ht : ℕ) (dl pnl : ℚ) (hp : pnl < 0) :
    (⟨dt, ht, dl, utcDate 0, hourKeyOfMs 0, none, none, none⟩ : TradeLimits).record_trade pnl 0 =
      ⟨dt + 1, ht + 1, dl + pnl, utcDate 0, hourKeyOfMs 0, none, none, none⟩ := by
  unfold TradeLimits.record_trade TradeLimits.reset_if_needed
  simp [hp]

/-- Helper: the three-losing-trades state of the spec's day-rollover scenario. -/
lemma three_losses_state :
    ((tlInit.record_trade (-10) 0).record_trade (-20) 0).record_trade (-5) 0 =
      ⟨3, 3, -35, utcDate 0, hourKeyOfMs 0, none, none, none⟩ := by
  have htl : tlInit = ⟨0, 0, 0, utcDate 0, hourKeyOfMs 0, none, none, none⟩ := rfl
  rw [htl, record_trade_same_bucket 0 0 0 (-10) (by norm_num),
      record_trade_same_bucket (0+1) (0+1) (0 + -10) (-20) (by norm_num),
      record_trade_same_bucket (0+1+1) (0+1+1) (0 + -10 + -20) (-5) (by norm_num)]
  norm_num [TradeLimits.mk.injEq]

/-- Helper: the next-UTC-day reset of the scenario state zeroes the daily
fields and (its hour key having changed too) the hourly counter. -/
lemma three_losses_reset :
    ((⟨3, 3, -35, utcDate 0, hourKeyOfMs 0, none, none, none⟩ : TradeLimits).reset_if_needed 86400000) =
      ⟨0, 0, 0, utcDate 86400000, hourKeyOfMs 86400000, none, none, none⟩ := by
  have hd : utcDate 86400000 ≠ utcDate 0 := by decide
  have hh : hourKeyOfMs 86400000 ≠ hourKeyOfMs 0 := by decide
  simp only [TradeLimits.reset_if_needed]
  rw [if_pos hd, if_pos hh]

/-- C8: `reset_if_needed(now)` compares the derived UTC day and hour buckets
of `now` with the stored ones, independently: a day-bucket mismatch zeroes
`daily_trades` and `daily_loss`, an hour-key mismatch zeroes `hourly_trades`,
matching buckets leave the respective group untouched.  Concretely, after
three same-day losing trades of −10, −20, −5 (loss −35, 3 trades), a
`reset_if_needed` in the next UTC day (epoch ms 86400000) zeroes the daily
fields, with the hourly counter governed by the hour key alone. -/
theorem reset_if_needed_spec (s : TradeLimits) (nowMs : ℤ) :
    (utcDate nowMs ≠ s.currentDay →
      (s.reset_if_needed nowMs).daily_trades = 0 ∧
      (s.reset_if_needed nowMs).daily_loss = 0 ∧
      (s.reset_if_needed nowMs).currentDay = utcDate nowMs) ∧
    (utcDate nowMs = s.currentDay →
      (s.reset_if_needed nowMs).daily_trades = s.daily_trades ∧
      (s.reset_if_needed nowMs).daily_loss = s.daily_loss ∧
      (s.reset_if_needed nowMs).currentDay = s.currentDay) ∧
    (hourKeyOfMs nowMs ≠ s.currentHourKey →
      (s.reset_if_needed nowMs).hourly_trades = 0 ∧
      (s.reset_if_needed nowMs).currentHourKey = hourKeyOfMs nowMs) ∧
    (hourKeyOfMs nowMs = s.currentHourKey →
      (s.reset_if_needed nowMs).hourly_trades = s.hourly_trades ∧
      (s.reset_if_needed nowMs).currentHourKey = s.currentHourKey) ∧
    ((((tlInit.record_trade (-10) 0).record_trade (-20) 0).record_trade (-5) 0).daily_loss = -35 ∧
     (((tlInit.record_trade (-10) 0).record_trade (-20) 0).record_trade (-5) 0).daily_trades = 3 ∧
     (((tlInit.record_trade (-10) 0).record_trade (-20) 0).record_trade (-5) 0).hourly_trades = 3 ∧
     ((((tlInit.record_trade (-10) 0).record_trade (-20) 0).record_trade (-5) 0).reset_if_needed 86400000).daily_loss = 0 ∧
     ((((tlInit.record_trade (-10) 0).record_trade (-20) 0).record_trade (-5) 0).reset_if_needed 86400000).daily_trades = 0 ∧
     ((((tlInit.record_trade (-10) 0).record_trade (-20) 0).record_trade (-5) 0).reset_if_needed 86400000).hourly_trades = 0 ∧
     ((((tlInit.record_trade (-10) 0).record_trade (-20) 0).record_trade (-5) 0).reset_if_needed 86400000).currentHourKey = hourKeyOfMs 86400000) := by
  have hscenario :
      (((tlInit.record_trade (-10) 0).record_trade (-20) 0).record_trade (-5) 0).daily_loss = -35 ∧
      (((tlInit.record_trade (-10) 0).record_trade (-20) 0).record_trade (-5) 0).daily_trades = 3 ∧
      (((tlInit.record_trade (-10) 0).record_trade (-20) 0).record_trade (-5) 0).hourly_trades = 3 ∧
      ((((tlInit.record_trade (-10) 0).record_trade (-20) 0).record_trade (-5) 0).reset_if_needed 86400000).daily_loss = 0 ∧
      ((((tlInit.record_trade (-10) 0).record_trade (-20) 0).record_trade (-5) 0).reset_if_needed 86400000).daily_trades = 0 ∧
      ((((tlInit.record_trade (-10) 0).record_trade (-20) 0).record_trade (-5) 0).reset_if_needed 86400000).hourly_trades = 0 ∧
      ((((tlInit.record_trade (-10) 0).record_trade (-20) 0).record_trade (-5) 0).reset_if_needed 86400000).currentHourKey = hourKeyOfMs 86400000 := by
    rw [three_losses_state, three_losses_reset]
    exact ⟨rfl, rfl, rfl, rfl, rfl, rfl, rfl⟩
  by_cases hd : utcDate nowMs = s.currentDay <;>
    by_cases hh : hourKeyOfMs nowMs = s.currentHourKey
  · exact ⟨fun h => absurd hd h,
      fun _ => by simp [TradeLimits.reset_if_needed, hd, hh],
      fun h => absurd hh h,
      fun _ => by simp [TradeLimits.reset_if_needed, hd, hh],
      hscenario⟩
  · exact ⟨fun h => absurd hd h,
      fun _ => by simp [TradeLimits.reset_if_needed, hd, hh],
      fun _ => by simp [TradeLimits.reset_if_needed, hd, hh],
      fun h => absurd h hh,
      hscenario⟩
  · exact ⟨fun _ => by simp [TradeLimits.reset_if_needed, hd, hh],
      fun h => absurd h hd,
      fun h => absurd hh h,
      fun _ => by simp [TradeLimits.reset_if_needed, hd, hh],
      hscenario⟩
  · exact ⟨fun _ => by simp [TradeLimits.reset_if_needed, hd, hh],
      fun h => absurd h hd,
      fun _ => by simp [TradeLimits.reset_if_needed, hd, hh],
      fun h => absurd h hh,
      hscenario⟩

/-- C8 witness: instantiated at `tlInit` and the next-day timestamp, both
boundary crossings fire: daily fields and the hourly counter are zeroed. -/
theorem reset_if_needed_spec_witness :
    (tlInit.reset_if_needed 86400000).daily_trades = 0 ∧
    (tlInit.reset_if_needed 86400000).daily_loss = 0 ∧
    (tlInit.reset_if_needed 86400000).hourly_trades = 0 := by
  have h := reset_if_needed_spec tlInit 86400000
  have hd : utcDate 86400000 ≠ tlInit.currentDay := by decide
  have hh : hourKeyOfMs 86400000 ≠ tlInit.currentHourKey := by decide
  exact ⟨(h.1 hd).1, (h.1 hd).2.1, (h.2.2.1 hh).1⟩

/-- C3 counterexample: the claim's failure clause says a failed remote query
is "surfaced to the caller rather than swallowed".  In the source
`sync_from_exchange` catches the `BinanceAPIError`, logs and returns normally,
so at this concrete state the call succeeds (`.ok`) and no error reaches the
caller — the dedicated handler in `main` is unreachable from this call. -/
theorem sync_from_exchange_failure_swallowed :
    sync_from_exchange "BTCUSDT" (some posFix) AccountFetch.apiError =
      Except.ok (some posFix) ∧
    sync_from_exchange "BTCUSDT" (some posFix) AccountFetch.apiError ≠
      Except.error () :=
  ⟨rfl, by simp [sync_from_exchange]⟩

/-- C3 (amended): `sync_from_exchange` adopts a remote position when none is
tracked, overwrites the local position with the remote one when they differ
in side or by more than 1e-8 in quantity or entry price (and keeps the local
one otherwise), retains the local position when the remote reports none, and
on a failed remote query leaves the local state untouched — but the failure
is caught and logged inside the method, not surfaced to the caller. -/
theorem sync_from_exchange_spec (symbol : String) (l r : Position)
    (entries : List RawPosition) :
    (parseRemotePosition symbol entries = some r →
      sync_from_exchange symbol none (AccountFetch.ok entries) = Except.ok (some r)) ∧
    (parseRemotePosition symbol entries = some r →
      (l.side ≠ r.side ∨ |l.quantity - r.quantity| > tol ∨
        |l.entry_price - r.entry_price| > tol) →
      sync_from_exchange symbol (some l) (AccountFetch.ok entries) = Except.ok (some r)) ∧
    (parseRemotePosition symbol entries = some r →
      ¬(l.side ≠ r.side ∨ |l.quantity - r.quantity| > tol ∨
        |l.entry_price - r.entry_price| > tol) →
      sync_from_exchange symbol (some l) (AccountFetch.ok entries) = Except.ok (some l)) ∧
    (parseRemotePosition symbol entries = none →
      sync_from_exchange symbol (some l) (AccountFetch.ok entries) = Except.ok (some l)) ∧
    (sync_from_exchange symbol (some l) AccountFetch.apiError = Except.ok (some l)) := by
  refine ⟨?_, ?_, ?_, ?_, rfl⟩
  · intro hparse
    simp [sync_from_exchange, hparse]
  · intro hparse hdiff
    simp [sync_from_exchange, hparse, hdiff]
  · intro hparse hsame
    simp [sync_from_exchange, hparse, hsame]
  · intro hparse
    simp [sync_from_exchange, hparse]

/-- C3 witness: adoption of a remote LONG position onto an empty tracker, and
the untouched-on-failure clause at the same concrete position. -/
theorem sync_from_exchange_spec_witness :
    sync_from_exchange "BTCUSDT" none (AccountFetch.ok [rawFix]) =
      Except.ok (some posFix) ∧
    sync_from_exchange "BTCUSDT" (some posFix) AccountFetch.apiError =
      Except.ok (some posFix) := by
  have h := sync_from_exchange_spec "BTCUSDT" posFix posFix [rawFix]
  exact ⟨h.1 (by decide), h.2.2.2.2⟩

/-- C1, failing input: state unprotected, remote position open, TP placement
fails.  `_place_protection` cancels both legs, clears both ids and sets
`is_protected = False` — but `sync` then assigns `self.is_protected = True`
unconditionally after the call returns, so the manager ends PROTECTED with
`tp_order_id = sl_order_id = None`: the claimed invariant
(`is_protected → both ids non-null`; failure keeps it false) is violated by
the code, while the except-handler's own `is_protected = False` shows the
claimed behaviour is what was intended. -/
theorem tp_sl_failed_placement_marks_protected :
    (tpslUnprotected.sync envTpFails).1.is_protected = true ∧
    (tpslUnprotected.sync envTpFails).1.tp_order_id = none ∧
    (tpslUnprotected.sync envTpFails).1.sl_order_id = none := by
  refine ⟨rfl, rfl, rfl⟩

/-- C5: with the state PROTECTED, the tracker aligned, and the exchange still
reporting the same open position, `sync()` is a complete no-op — no state
change, no order placements, no cancellations — and so is a second call. -/
theorem tp_sl_sync_idempotent (s : TpSlState) (env : TpSlEnv)
    (entries : List RawPosition) (r : Position)
    (hfetch : env.fetch = AccountFetch.ok entries)
    (hparse : parseRemotePosition s.symbol entries = some r)
    (htrack : s.trackerPosition = some r)
    (hprot : s.is_protected = true) :
    s.sync env = (s, []) ∧ ((s.sync env).1).sync env = ((s.sync env).1, []) := by
  have hupd : ({ s with is_protected := true, trackerPosition := some r } : TpSlState) = s := by
    rw [← htrack, ← hprot]
  have h1 : s.sync env = (s, []) := by
    simp [TpSlState.sync, fetch_remote_position, hfetch, hparse, hupd, hprot]
  refine ⟨h1, ?_⟩
  rw [h1]
  exact h1

/-- C5 witness: a concrete protected state with live order ids; both the
first and second `sync()` are no-ops with empty action traces. -/
theorem tp_sl_sync_idempotent_witness :
    tpslProtected.sync envAllOk = (tpslProtected, []) ∧
    ((tpslProtected.sync envAllOk).1).sync envAllOk =
      ((tpslProtected.sync envAllOk).1, []) :=
  tp_sl_sync_idempotent tpslProtected envAllOk [rawFix] posFix rfl (by decide) rfl rfl

/-- Helper: `_cancel_outstanding` never touches the tracked position. -/
lemma cancel_outstanding_tracker (s : TpSlState) :
    (cancel_outstanding s).1.trackerPosition = s.trackerPosition := rfl

/-- Helper: `_place_protection` never touches the tracked position. -/
lemma place_protection_tracker (s : TpSlState) (env : TpSlEnv) :
    (place_protection s env).1.trackerPosition = s.trackerPosition := by
  unfold place_protection
  cases env.tpResult with
  | apiError => rfl
  | ok tpResp =>
    cases h : truthyId tpResp with
    | none => simp [h, cancel_outstanding]
    | some tpId =>
      cases env.slResult with
      | apiError => simp [h, cancel_outstanding]
      | ok slResp =>
        cases h2 : truthyId slResp with
        | none => simp [h, h2, cancel_outstanding]
        | some slId => simp [h, h2]

/-- C10: when the account-info query inside `sync` raises, the manager falls
back to the tracker's local position (`_fetch_remote_position` returns it
instead of treating the failure as "no remote position").  Hence, with a
local position present, the outage never routes `sync` into the
cancel-and-clear branch: the tracked position survives, and if the state was
PROTECTED the whole `sync` is a no-op with no cancellations at all. -/
theorem tp_sl_outage_preserves_local (s : TpSlState) (env : TpSlEnv) (p : Position)
    (hfetch : env.fetch = AccountFetch.apiError)
    (htrack : s.trackerPosition = some p) :
    fetch_remote_position s AccountFetch.apiError = (s, some p) ∧
    (s.sync env).1.trackerPosition = some p ∧
    (s.is_protected = true → s.sync env = (s, [])) := by
  have hfr : fetch_remote_position s env.fetch = (s, some p) := by
    rw [hfetch]
    simp [fetch_remote_position, htrack]
  refine ⟨by rw [← hfetch]; exact hfr, ?_, ?_⟩
  · by_cases hp : s.is_protected
    · simp [TpSlState.sync, hfr, hp, htrack]
    · simp [TpSlState.sync, hfr, hp, place_protection_tracker,
        cancel_outstanding_tracker, htrack]
  · intro hp
    simp [TpSlState.sync, hfr, hp]

/-- C10 witness: a concrete protected state under an account-info outage —
the fallback yields the tracked position and `sync` is a no-op. -/
theorem tp_sl_outage_preserves_local_witness :
    fetch_remote_position tpslProtected AccountFetch.apiError =
      (tpslProtected, some posFix) ∧
    tpslProtected.sync envOutage = (tpslProtected, []) := by
  have h := tp_sl_outage_preserves_local tpslProtected envOutage posFix rfl rfl
  exact ⟨h.1, h.2.2 rfl⟩

/-- C2, failing inputs: a klines response with a 60-second gap between open
times, and an empty response.  In both cases `_normalize_klines` /
`_validate_sequence` raise `ValueError`; in `main` the fetch calls sit
outside any handler (the loop catches only `KeyboardInterrupt`, and the
`BinanceAPIError` handler guards only the position sync), so the cycle does
not proceed — the exception escapes the loop and the process terminates,
contrary to the claimed "skip this cycle and continue" behaviour. -/
theorem data_integrity_error_crashes_loop :
    run_cycle_data_phase badGapKlines KlinesResp.notList 1000000 1500 =
      CycleResult.uncaughtError (PyError.valueError "Missing or unordered candles detected") ∧
    run_cycle_data_phase emptyKlines KlinesResp.notList 1000000 1500 =
      CycleResult.uncaughtError (PyError.valueError "Klines response is empty or invalid") ∧
    run_cycle_data_phase badGapKlines KlinesResp.notList 1000000 1500 ≠
      CycleResult.nextCycle := by
  have h1 : run_cycle_data_phase badGapKlines KlinesResp.notList 1000000 1500 =
      CycleResult.uncaughtError (PyError.valueError "Missing or unordered candles detected") := rfl
  refine ⟨h1, rfl, ?_⟩
  rw [h1]
  intro h
  exact CycleResult.noConfusion h

end ScalpingBot
